import Mathlib

/-!
Verification of the recommendation service core against its specification.

The Go sources are shallowly embedded:
* `float64` values (scores, weights, timestamps) are modelled as exact
  rationals (`ℚ`); timestamps are rationals measured in hours, so that
  `time.Duration.Hours()` is plain subtraction.
* `rand.Float64()` draws are modelled as explicit parameters ranging over
  `[0,1)`; each candidate's draw is indexed by its position.
* stateful and effectful calls (repository, Redis, the semaphore) are
  modelled by explicit environments, explicit state passing, and a step
  relation.
-/

namespace RecService

/-! ## Data model (internal/domain) -/

/-- domain.User (part_005). -/
structure User where
  id : Int
  age : Int
  country : String
  subscriptionType : String
  createdAt : ℚ
deriving DecidableEq, Repr

/-- domain.WatchHistoryItem (part_007); `watchedAt` in hours. -/
structure WatchHistoryItem where
  contentId : Int
  genre : String
  watchedAt : ℚ
deriving DecidableEq, Repr

/-- domain.Content (internal/domain/content.go); `createdAt` in hours. -/
structure Content where
  id : Int
  title : String
  genre : String
  popularityScore : ℚ
  createdAt : ℚ
deriving DecidableEq, Repr

/-- domain.ScoredRecommendation (internal/domain/recommendation.go). -/
structure ScoredRecommendation where
  contentId : Int
  title : String
  genre : String
  popularityScore : ℚ
  score : ℚ
deriving DecidableEq, Repr

/-! ## Scoring engine (internal/model/client.go) -/

/-- Go's `math.Round`: rounds to the nearest integer, half away from zero. -/
def goRound (x : ℚ) : ℤ :=
  if x < 0 then -⌊-x + 0.5⌋ else ⌊x + 0.5⌋

/-- `math.Round(x*1000) / 1000` — round to 3 decimal places (client.go line 63). -/
def roundTo3 (x : ℚ) : ℚ :=
  (goRound (x * 1000) : ℚ) / 1000

/-- calculateGenrePreferenceWeights (client.go lines 80-98), viewed as the
lookup function of the returned map: a genre is present in the map iff the
history is nonempty and the genre occurs in it, and then maps to
count / total. -/
def calculateGenrePreferenceWeights (history : List WatchHistoryItem) (g : String) : Option ℚ :=
  let total : ℚ := history.length
  let cnt : ℕ := history.countP (fun item => item.genre == g)
  if total = 0 then none
  else if cnt = 0 then none
  else some ((cnt : ℚ) / total)

/-- calculateRecencyFactor (client.go lines 101-104); times in hours, so
`now.Sub(createdAt).Hours() / 24.0` is `(now - createdAt) / 24`. -/
def calculateRecencyFactor (createdAt now : ℚ) : ℚ :=
  let daysSinceCreation := (now - createdAt) / 24
  1 / (1 + daysSinceCreation / 365)

/-- The noise term of computeFinalScore (client.go line 119):
`(rand.Float64()*0.1 - 0.05) * 0.1`, with `u` the raw `rand.Float64()` draw. -/
def randomNoise (u : ℚ) : ℚ :=
  (u * 0.1 - 0.05) * 0.1

/-- computeFinalScore (client.go lines 106-122); `genrePrefs` is the map
produced by `calculateGenrePreferenceWeights`, `u` the candidate's
`rand.Float64()` draw. -/
def computeFinalScore (content : Content) (genrePrefs : String → Option ℚ)
    (now : ℚ) (u : ℚ) : ℚ :=
  let popularityComponent := content.popularityScore * 0.4
  let genrePref := (genrePrefs content.genre).getD 0.1
  let genreBoost := genrePref * 0.35
  let recencyFactor := calculateRecencyFactor content.createdAt now
  let recencyComponent := recencyFactor * 0.15
  popularityComponent + genreBoost + recencyComponent + randomNoise u

/-- The genre weight actually used when scoring a candidate of genre `g`:
the map entry when present, the 0.1 exploration floor otherwise
(client.go lines 109-112). -/
def usedGenreWeight (history : List WatchHistoryItem) (g : String) : ℚ :=
  (calculateGenrePreferenceWeights history g).getD 0.1

/-- A concrete watch history with three action items and one drama item,
matching the spec's worked example. -/
def histActionDrama : List WatchHistoryItem :=
  [⟨1, "action", 0⟩, ⟨2, "action", 0⟩, ⟨3, "action", 0⟩, ⟨4, "drama", 0⟩]

/-- model.ScoreInput (client.go lines 27-32). `limit` is a `Nat`: every call
site passes the service-clamped positive limit. -/
structure ScoreInput where
  user : User
  watchHistory : List WatchHistoryItem
  candidates : List Content
  limit : ℕ
deriving Repr

/-- One output entry of Client.Score (client.go lines 58-64): the candidate
with its id, title, genre and popularity copied and the rounded computed
score attached. -/
def scoredOf (genrePrefs : String → Option ℚ) (now : ℚ) (content : Content) (u : ℚ) :
    ScoredRecommendation :=
  { contentId := content.id
    title := content.title
    genre := content.genre
    popularityScore := content.popularityScore
    score := roundTo3 (computeFinalScore content genrePrefs now u) }

/-- The scoring loop of Client.Score (client.go lines 53-65): one output
entry per candidate, in candidate order, the `i`-th candidate consuming the
`i`-th random draw. -/
def scoreCandidates (genrePrefs : String → Option ℚ) (now : ℚ) (u : ℕ → ℚ) :
    ℕ → List Content → List ScoredRecommendation
  | _, [] => []
  | i, content :: rest =>
    scoredOf genrePrefs now content (u i) :: scoreCandidates genrePrefs now u (i + 1) rest

/-- The list of scored candidates built by Client.Score before sorting. -/
def scoredList (input : ScoreInput) (now : ℚ) (u : ℕ → ℚ) : List ScoredRecommendation :=
  scoreCandidates (calculateGenrePreferenceWeights input.watchHistory) now u 0 input.candidates

/-- Scores non-increasing along the list: the postcondition of
`sort.Slice(scored, less)` with `less i j ↔ scored[i].Score > scored[j].Score`. -/
def scoreSortedDesc (l : List ScoredRecommendation) : Prop :=
  l.Pairwise (fun a b => b.score ≤ a.score)

/-- Success behaviour of Client.Score (client.go lines 39-78): the scored
candidates are sorted by `sort.Slice` — whose contract guarantees a
permutation ordered per the comparator, and explicitly does NOT guarantee
stability — then truncated to `limit`. -/
def ScoreOk (input : ScoreInput) (now : ℚ) (u : ℕ → ℚ)
    (out : List ScoredRecommendation) : Prop :=
  ∃ sorted : List ScoredRecommendation,
    sorted.Perm (scoredList input now u) ∧
    scoreSortedDesc sorted ∧
    out = sorted.take input.limit

/-- Modelled from the spec (claim C3's wording): descending insertion that
keeps ties in original order — an earlier element is placed before every
later element whose score is not strictly greater. -/
def specInsertDesc (x : ScoredRecommendation) :
    List ScoredRecommendation → List ScoredRecommendation
  | [] => [x]
  | y :: ys => if x.score < y.score then y :: specInsertDesc x ys else x :: y :: ys

/-- Modelled from the spec: stable sort by strictly descending score with
ties kept in original candidate order. -/
def specStableSortDesc : List ScoredRecommendation → List ScoredRecommendation
  | [] => []
  | x :: xs => specInsertDesc x (specStableSortDesc xs)

/-- Modelled from the spec: the first `min(limit, #candidates)` elements of
the scored candidates under the stable descending order. -/
def specStableTopK (input : ScoreInput) (now : ℚ) (u : ℕ → ℚ) :
    List ScoredRecommendation :=
  (specStableSortDesc (scoredList input now u)).take input.limit

/-- Modelled from the spec (claim C6's wording): final score formula
`popularity·0.40 + genre_weight·0.35 + recency·0.15 + noise·0.10` with
`recency = 1 / (1 + days_since_created / 365)`. -/
def specScoreFormula (c : Content) (genreWeight : ℚ) (now : ℚ) (noise : ℚ) : ℚ :=
  c.popularityScore * 0.40 + genreWeight * 0.35 +
    (1 / (1 + ((now - c.createdAt) / 24) / 365)) * 0.15 + noise * 0.10

/-- A candidate content item; its twin `candTieB` differs only in identity,
so both receive the same score under equal draws. -/
def candTieA : Content :=
  { id := 1, title := "A", genre := "action", popularityScore := 1/2, createdAt := 0 }

/-- The twin of `candTieA` with a different id and title. -/
def candTieB : Content :=
  { id := 2, title := "B", genre := "action", popularityScore := 1/2, createdAt := 0 }

/-- A scoring call on the two tied candidates with limit 2. -/
def tieInput : ScoreInput :=
  { user := { id := 1, age := 25, country := "US", subscriptionType := "basic", createdAt := 0 }
    watchHistory := []
    candidates := [candTieA, candTieB]
    limit := 2 }

/-- Random draws all equal to 1/2, making the noise term vanish. -/
def tieU : ℕ → ℚ := fun _ => 1/2

/-- The scored form of `candTieA` at time 0 under `tieU`:
0.5·0.4 + 0.1·0.35 + 1·0.15 + 0 = 0.385 = 77/200. -/
def recTieA : ScoredRecommendation :=
  { contentId := 1, title := "A", genre := "action", popularityScore := 1/2, score := 77/200 }

/-- The scored form of `candTieB` at time 0 under `tieU`. -/
def recTieB : ScoredRecommendation :=
  { contentId := 2, title := "B", genre := "action", popularityScore := 1/2, score := 77/200 }

/-! ## Error taxonomy (internal/domain/recommendation.go, internal/model/client.go)

Go errors are modelled by an inductive that keeps the identity information
`errors.Is` / `errors.As` inspect: sentinel values, the concrete
`*model.ModelInferenceError` type, context errors, and `fmt.Errorf("…: %w")`
wrapping. -/

inductive GoErr where
  /-- domain.ErrUserNotFound sentinel. -/
  | errUserNotFound : GoErr
  /-- domain.ErrModelUnavailable sentinel. -/
  | errModelUnavailable : GoErr
  /-- domain.ErrRequestTimeout sentinel. -/
  | errRequestTimeout : GoErr
  /-- context.Canceled. -/
  | ctxCanceled : GoErr
  /-- context.DeadlineExceeded. -/
  | ctxDeadlineExceeded : GoErr
  /-- a `*model.ModelInferenceError` value (client.go lines 19-25). -/
  | modelInferenceError (msg : String) : GoErr
  /-- `fmt.Errorf(msg + ": %w", inner)` — wraps `inner`. -/
  | wrapf (msg : String) (inner : GoErr) : GoErr
  /-- any other leaf error. -/
  | simple (msg : String) : GoErr
deriving DecidableEq, Repr

/-- The unwrap chain an error exposes: the error itself followed by
everything reachable through `Unwrap`. Only `wrapf` wraps; every other
constructor is a leaf (in particular `ModelInferenceError` has no `Unwrap`
and no `Is` method). -/
def GoErr.unwrapChain : GoErr → List GoErr
  | .wrapf msg inner => .wrapf msg inner :: inner.unwrapChain
  | e => [e]

/-- `errors.Is(err, target)` for leaf sentinel targets: some unwrapping of
`err` equals `target`. -/
def errorsIs (err target : GoErr) : Bool :=
  err.unwrapChain.contains target

/-- model.IsModelInferenceError (client.go lines 34-37): `errors.As` with a
`**ModelInferenceError` target — some unwrapping of `err` is a
`ModelInferenceError`. -/
def isModelInferenceError (err : GoErr) : Bool :=
  err.unwrapChain.any fun e =>
    match e with
    | .modelInferenceError _ => true
    | _ => false

/-! ## Orchestrator (service, part_002) -/

/-- Service limits (part_002 lines 17-24). -/
def defaultLimit : ℤ := 10

/-- Maximum recommendation limit (part_002 line 19). -/
def maxLimit : ℤ := 50

/-- Per-user recommendation limit used by the batch path (part_002 line 23). -/
def batchRecLimit : ℤ := 10

/-- Semaphore capacity of the batch fan-out (part_002 line 22). -/
def batchConcurrency : ℕ := 10

/-- The limit adjustment at the top of Service.GetRecommendations
(part_002 lines 48-52): non-positive limits become `defaultLimit`,
limits above `maxLimit` become `maxLimit`. -/
def clampLimit (limit : ℤ) : ℤ :=
  if limit ≤ 0 then defaultLimit
  else if limit > maxLimit then maxLimit
  else limit

/-- domain.RecommendationResult. -/
structure RecommendationResult where
  recommendations : List ScoredRecommendation
  cacheHit : Bool
deriving DecidableEq, Repr

/-- Environment of one Service.GetRecommendations call: the outcome of each
collaborator call, keyed by the (clamped) limit where the source passes it.
`cacheGet` yields (cached value, found, error); the scoring outcome is
supplied as an oracle (the engine itself is modelled by `ScoreOk` above). -/
structure ServiceEnv where
  getUserByID : Except GoErr User
  cacheGet : ℤ → List ScoredRecommendation × Bool × Option GoErr
  getWatchHistory : Except GoErr (List WatchHistoryItem)
  getCandidates : Except GoErr (List Content)
  scoreAt : ℤ → Except GoErr (List ScoredRecommendation)
  cacheSet : ℤ → List ScoredRecommendation → Option GoErr

/-- Service.generateRecommendations (part_002 lines 85-115). Error wrapping
mirrors the source: a user fetch error is passed through when it is
ErrUserNotFound and wrapped otherwise; history and candidate errors are
wrapped; a scoring error is returned unwrapped. -/
def generateRecommendations (env : ServiceEnv) (limit : ℤ) :
    Except GoErr (List ScoredRecommendation) :=
  match env.getUserByID with
  | .error err =>
    if errorsIs err .errUserNotFound then .error err
    else .error (.wrapf "fetch user" err)
  | .ok _ =>
    match env.getWatchHistory with
    | .error err => .error (.wrapf "fetch watch history" err)
    | .ok _ =>
      match env.getCandidates with
      | .error err => .error (.wrapf "fetch candidates" err)
      | .ok _ =>
        match env.scoreAt limit with
        | .error err => .error err
        | .ok scored => .ok scored

/-- Service.GetRecommendations (part_002 lines 47-83): clamp the limit, use
it for the cache lookup; a cache error is only logged; on hit return the
cached list with `cacheHit = true`; on miss generate, then best-effort cache
populate (the set error is only logged). -/
def getRecommendations (env : ServiceEnv) (limit : ℤ) :
    Except GoErr RecommendationResult :=
  let lim := clampLimit limit
  let cacheOutcome := env.cacheGet lim
  if cacheOutcome.2.1 then
    .ok { recommendations := cacheOutcome.1, cacheHit := true }
  else
    match generateRecommendations env lim with
    | .error err => .error err
    | .ok recs => .ok { recommendations := recs, cacheHit := false }

/-- Handler.GetRecommendations error mapping (part_003 lines 37-58): the
error code written for a failed service call. -/
def handlerClassify (err : GoErr) : String :=
  if errorsIs err .errUserNotFound then "user_not_found"
  else if errorsIs err .errModelUnavailable then "model_unavailable"
  else if errorsIs err .ctxDeadlineExceeded || errorsIs err .ctxCanceled then "request_timeout"
  else "internal_error"

/-- categorizeError (part_002 lines 212-220). -/
def categorizeError (err : GoErr) : String × String :=
  if errorsIs err .errUserNotFound then ("user_not_found", "user not found")
  else if isModelInferenceError err then
    ("model_inference_error", "recommendation model failed to generate a response")
  else ("internal_error", "an unexpected error occurred")

/-- A concrete environment in which the cache misses, the repository calls
succeed and the scoring engine fails (the 1.5% branch of client.go line 45). -/
def envScoringFails : ServiceEnv where
  getUserByID := .ok { id := 1, age := 25, country := "US", subscriptionType := "premium", createdAt := 0 }
  cacheGet := fun _ => ([], false, none)
  getWatchHistory := .ok []
  getCandidates := .ok []
  scoreAt := fun _ => .error (.modelInferenceError "model inference failed")
  cacheSet := fun _ _ => none

/-! ## Batch fan-out (part_002 lines 117-198)

Each goroutine writes only its own pre-allocated index of `results`, and the
controller joins on all of them before aggregating, so the aggregate equals
the index-aligned functional map below; the per-user call outcome is an
oracle indexed by position and user id. -/

/-- domain.BatchStatus value "success". -/
def statusSuccess : String := "success"

/-- domain.BatchStatus value "failed". -/
def statusFailed : String := "failed"

/-- domain.BatchUserResult; absent JSON fields are Go zero values. -/
structure BatchUserResult where
  userID : ℤ
  recommendations : List ScoredRecommendation
  status : String
  error : String
  message : String
deriving DecidableEq, Repr

/-- domain.BatchSummary (processing time is not modelled). -/
structure BatchSummary where
  successCount : ℕ
  failedCount : ℕ
deriving DecidableEq, Repr

/-- domain.BatchResponse (page, limit and metadata echoes omitted). -/
structure BatchResponse where
  totalUsers : ℤ
  results : List BatchUserResult
  summary : BatchSummary
deriving DecidableEq, Repr

/-- Service.processUserForBatch (part_002 lines 180-198). -/
def processUserForBatch (uid : ℤ) (outcome : Except GoErr RecommendationResult) :
    BatchUserResult :=
  match outcome with
  | .error err =>
    let codeMsg := categorizeError err
    { userID := uid, recommendations := [], status := statusFailed
      error := codeMsg.1, message := codeMsg.2 }
  | .ok result =>
    { userID := uid, recommendations := result.recommendations
      status := statusSuccess, error := "", message := "" }

/-- The fan-out loop: one result per user id, at that id's input index;
`outcome i uid` is the result of `GetRecommendations(uid, batchRecLimit)`
for the unit spawned at index `i`. -/
def batchResultsAux (outcome : ℕ → ℤ → Except GoErr RecommendationResult) :
    ℕ → List ℤ → List BatchUserResult
  | _, [] => []
  | i, uid :: rest =>
    processUserForBatch uid (outcome i uid) :: batchResultsAux outcome (i + 1) rest

/-- Service.GetBatchRecommendations aggregation (part_002 lines 133-176):
index-aligned results, then success/failed tallies over them. -/
def getBatchRecommendations (userIDs : List ℤ) (totalUsers : ℤ)
    (outcome : ℕ → ℤ → Except GoErr RecommendationResult) : BatchResponse :=
  let results := batchResultsAux outcome 0 userIDs
  { totalUsers := totalUsers
    results := results
    summary :=
      { successCount := results.countP (fun r => r.status == statusSuccess)
        failedCount := results.countP (fun r => !(r.status == statusSuccess)) } }

/-- A per-user outcome oracle for a 3-user batch: user 2 fails with
UserNotFound, the others succeed with an empty list. -/
def batchOutcomeExample : ℕ → ℤ → Except GoErr RecommendationResult :=
  fun _ uid =>
    if uid = 2 then .error .errUserNotFound
    else .ok { recommendations := [], cacheHit := false }

/-! ## AddWatchHistory (part_002 lines 201-209) -/

/-- Service.AddWatchHistory over an abstract cache state `σ`: persist via the
repository; only on persistence success run the user's cache invalidation,
whose own error is logged and dropped. Returns the call result and the cache
state after the call. -/
def addWatchHistory {σ : Type} (persist : Except GoErr Unit)
    (clearUserCache : σ → σ × Option GoErr) (st : σ) : Except GoErr Unit × σ :=
  match persist with
  | .error err => (.error err, st)
  | .ok _ =>
    let cleared := clearUserCache st
    (.ok (), cleared.1)

/-! ## Cache store TTL (part_004, part_001) -/

/-- `defaultTTL = 10 * time.Minute` (part_004 line 13), in nanoseconds
(`time.Duration` is an int64 nanosecond count). -/
def defaultTTLNanos : ℤ := 10 * 60 * 1000000000

/-- The Redis SET command issued by Cache.Set, with its key, serialized
value and expiry. -/
structure RedisSetCommand where
  key : String
  value : List ScoredRecommendation
  ttlNanos : ℤ
deriving DecidableEq, Repr

/-- buildKey (part_004 lines 23-25): `rec:user:{id}:limit:{n}`. -/
def buildKey (userID : ℤ) (limit : ℤ) : String :=
  s!"rec:user:{userID}:limit:{limit}"

/-- Cache.Set (part_004 lines 48-60): the backend write always carries the
package-level `defaultTTL`. -/
def cacheSetCommand (userID : ℤ) (limit : ℤ) (recs : List ScoredRecommendation) :
    RedisSetCommand :=
  { key := buildKey userID limit, value := recs, ttlNanos := defaultTTLNanos }

/-- config.Load's cache TTL (part_001 lines 24, 55-62):
`getEnvDuration("CACHE_TTL", 10*time.Minute)` — the parsed environment value
when present and valid, else the fallback. `envCacheTTL` is the successfully
parsed duration, if any. -/
def loadCacheTTL (envCacheTTL : Option ℤ) : ℤ :=
  envCacheTTL.getD (10 * 60 * 1000000000)

/-! ## Admission gate (part_002 lines 132-148)

The semaphore is a buffered channel of capacity `batchConcurrency`; each
unit sends one token before running `processUserForBatch` and receives one
back when done. A state records each unit's phase plus the channel buffer
occupancy; the step relation has exactly the two channel operations. -/

/-- Phase of one batch unit: before the semaphore send, holding a slot
(executing the per-user work), or finished (slot released). -/
inductive UnitPhase where
  | waiting : UnitPhase
  | holding : UnitPhase
  | finished : UnitPhase
deriving DecidableEq, Repr

/-- Global state of the fan-out: per-unit phases and the semaphore channel
buffer occupancy. -/
structure GateState where
  units : List UnitPhase
  semCount : ℕ
deriving DecidableEq, Repr

/-- The two semaphore transitions: `acquire` (the channel send, enabled only
while the buffer holds fewer than `batchConcurrency` tokens) moves a waiting
unit to holding; `release` (the deferred receive, on success or failure)
moves a holding unit to finished. -/
inductive GateStep : GateState → GateState → Prop where
  | acquire (s : GateState) (i : ℕ) (h : i < s.units.length)
      (hw : s.units.get ⟨i, h⟩ = .waiting)
      (hs : s.semCount < batchConcurrency) :
      GateStep s ⟨s.units.set i .holding, s.semCount + 1⟩
  | release (s : GateState) (i : ℕ) (h : i < s.units.length)
      (hh : s.units.get ⟨i, h⟩ = .holding) :
      GateStep s ⟨s.units.set i .finished, s.semCount - 1⟩

/-- Initial state of a batch of `n` users: all units spawned, none admitted,
empty channel buffer. -/
def initGateState (n : ℕ) : GateState :=
  { units := List.replicate n .waiting, semCount := 0 }

/-- States a batch of `n` users can reach. -/
def GateReachable (n : ℕ) (s : GateState) : Prop :=
  Relation.ReflTransGen GateStep (initGateState n) s

/-- Number of units concurrently executing the per-user work. -/
def inFlight (s : GateState) : ℕ :=
  s.units.countP (fun p => p == UnitPhase.holding)

/-! ## Theorems -/

/-- Replacing index `i` exchanges that element's contribution to `countP`. -/
theorem countP_set_add {α : Type} (p : α → Bool) :
    ∀ (l : List α) (i : ℕ) (x : α) (h : i < l.length),
      (l.set i x).countP p + (if p (l.get ⟨i, h⟩) then 1 else 0) =
        l.countP p + (if p x then 1 else 0) := by
  intro l
  induction l with
  | nil =>
    intro i x h
    simp at h
  | cons a t ih =>
    intro i x h
    cases i with
    | zero =>
      show (x :: t).countP p + (if p a then 1 else 0) =
        (a :: t).countP p + (if p x then 1 else 0)
      cases hpa : p a <;> cases hpx : p x <;>
        simp [List.countP_cons, hpa, hpx]
    | succ n =>
      have hn : n < t.length := by simpa using h
      have key := ih n x hn
      show (a :: t.set n x).countP p + (if p (t.get ⟨n, hn⟩) then 1 else 0) =
        (a :: t).countP p + (if p x then 1 else 0)
      cases hpa : p a <;>
        simp [List.countP_cons, hpa, List.get_eq_getElem] at key ⊢ <;> omega

/-- Gate invariant: in every reachable state the semaphore buffer occupancy
equals the number of units in the holding phase, and stays within the
channel capacity. -/
theorem gate_invariant (n : ℕ) (s : GateState) (h : GateReachable n s) :
    s.semCount = inFlight s ∧ inFlight s ≤ batchConcurrency := by
  induction h with
  | refl =>
    simp [initGateState, inFlight, List.countP_replicate, batchConcurrency]
  | tail _ hstep ih =>
    cases hstep with
    | acquire i hi hw hs =>
      rename_i s _
      have key := countP_set_add (fun p => p == UnitPhase.holding) s.units i .holding hi
      rw [hw] at key
      simp only [inFlight] at ih ⊢
      simp at key
      omega
    | release i hi hh =>
      rename_i s _
      have key := countP_set_add (fun p => p == UnitPhase.holding) s.units i .finished hi
      rw [hh] at key
      simp only [inFlight] at ih ⊢
      simp at key
      omega

/-- C9: during a batch fan-out of any size, the number of units concurrently
executing the per-user recommendation work never exceeds the admission-gate
capacity 10: a unit holds a gate slot exactly while working (acquired before
the work starts, released on completion whether it succeeded or failed). -/
theorem gate_bounds_in_flight (n : ℕ) (s : GateState) (h : GateReachable n s) :
    inFlight s ≤ batchConcurrency :=
  (gate_invariant n s h).2

/-- C9 witness: the 3-user batch state reached by admitting unit 0 has one
unit in flight, within the capacity. -/
theorem gate_bounds_in_flight_witness :
    inFlight { units := [.holding, .waiting, .waiting], semCount := 1 } ≤ batchConcurrency :=
  gate_bounds_in_flight 3 _
    (Relation.ReflTransGen.single
      (GateStep.acquire (initGateState 3) 0 (by decide) (by decide) (by decide)))

/-- The scoring loop yields one entry per candidate. -/
theorem scoreCandidates_length (g : String → Option ℚ) (now : ℚ) (u : ℕ → ℚ) :
    ∀ (cs : List Content) (i : ℕ), (scoreCandidates g now u i cs).length = cs.length := by
  intro cs
  induction cs with
  | nil => intro i; rfl
  | cons a t ih =>
    intro i
    simp [scoreCandidates, ih]

/-- The scored list has one entry per candidate. -/
theorem scoredList_length (input : ScoreInput) (now : ℚ) (u : ℕ → ℚ) :
    (scoredList input now u).length = input.candidates.length :=
  scoreCandidates_length _ _ _ _ _

/-- Positionally, the scoring loop turns the `j`-th candidate into its
scored form under the `(i+j)`-th draw. -/
theorem scoreCandidates_getElem? (g : String → Option ℚ) (now : ℚ) (u : ℕ → ℚ) :
    ∀ (cs : List Content) (i j : ℕ),
      (scoreCandidates g now u i cs)[j]? =
        (cs[j]?).map (fun c => scoredOf g now c (u (i + j))) := by
  intro cs
  induction cs with
  | nil => intro i j; simp [scoreCandidates]
  | cons a t ih =>
    intro i j
    cases j with
    | zero => simp [scoreCandidates]
    | succ m =>
      simp only [scoreCandidates, List.getElem?_cons_succ, ih (i + 1) m]
      have : i + 1 + m = i + (m + 1) := by omega
      rw [this]

/-- Positional form of the scored list. -/
theorem scoredList_getElem? (input : ScoreInput) (now : ℚ) (u : ℕ → ℚ) (i : ℕ) :
    (scoredList input now u)[i]? =
      (input.candidates[i]?).map
        (fun c => scoredOf (calculateGenrePreferenceWeights input.watchHistory) now c (u i)) := by
  have h := scoreCandidates_getElem? (calculateGenrePreferenceWeights input.watchHistory)
    now u input.candidates 0 i
  simpa [scoredList] using h

/-- Every entry of the scoring loop's output is the scored form of some
input candidate under some draw. -/
theorem mem_scoreCandidates (g : String → Option ℚ) (now : ℚ) (u : ℕ → ℚ) :
    ∀ (cs : List Content) (i : ℕ) (r : ScoredRecommendation),
      r ∈ scoreCandidates g now u i cs → ∃ c ∈ cs, ∃ j, r = scoredOf g now c (u j) := by
  intro cs
  induction cs with
  | nil =>
    intro i r hr
    simp [scoreCandidates] at hr
  | cons a t ih =>
    intro i r hr
    rcases List.mem_cons.mp hr with rfl | hr2
    · exact ⟨a, List.mem_cons_self a t, i, rfl⟩
    · obtain ⟨c, hc, j, rfl⟩ := ih (i + 1) r hr2
      exact ⟨c, List.mem_cons_of_mem _ hc, j, rfl⟩

/-- Evaluation of the tie example: both candidates score 0.385 exactly. -/
theorem scoredList_tie : scoredList tieInput 0 tieU = [recTieA, recTieB] := by
  norm_num [scoredList, scoreCandidates, scoredOf, computeFinalScore,
    calculateGenrePreferenceWeights, calculateRecencyFactor, randomNoise,
    roundTo3, goRound, tieInput, tieU, recTieA, recTieB, candTieA, candTieB]

/-- The straight (stable) outcome of the tie example satisfies the Score
contract. -/
theorem scoreOk_tie : ScoreOk tieInput 0 tieU [recTieA, recTieB] := by
  refine ⟨[recTieA, recTieB], ?_, ?_, rfl⟩
  · rw [scoredList_tie]
  · simp [scoreSortedDesc, recTieA, recTieB]

/-- C3 counterexample: on two candidates tied at score 0.385, the output
`[recTieB, recTieA]` — ties in reversed candidate order — also satisfies the
Score contract (`sort.Slice` is documented as unstable, so the sorted
permutation is unconstrained on ties), yet it differs from the claim's
stable-sort-with-stable-truncation result `[recTieA, recTieB]`. -/
theorem score_tie_order_not_stable :
    ScoreOk tieInput 0 tieU [recTieB, recTieA] ∧
    [recTieB, recTieA] ≠ specStableTopK tieInput 0 tieU := by
  constructor
  · refine ⟨[recTieB, recTieA], ?_, ?_, rfl⟩
    · rw [scoredList_tie]
      exact List.Perm.swap recTieA recTieB []
    · simp [scoreSortedDesc, recTieA, recTieB]
  · have hstable : specStableTopK tieInput 0 tieU = [recTieA, recTieB] := by
      rw [specStableTopK, scoredList_tie]
      norm_num [specStableSortDesc, specInsertDesc, recTieA, recTieB, tieInput]
    rw [hstable]
    simp [recTieA, recTieB]

/-- C3 (amended): whenever the scoring engine succeeds, the returned list
consists of the scored candidates sorted into some non-increasing order by
rounded score and truncated to the limit — the order of equal-score entries
is unspecified (`sort.Slice` is not stable) — so its length is exactly
min(limit, #candidates), its scores are non-increasing along the list, and
it is a sub-multiset of the scored candidates. -/
theorem score_output_shape (input : ScoreInput) (now : ℚ) (u : ℕ → ℚ)
    (out : List ScoredRecommendation) (h : ScoreOk input now u out) :
    out.length = min input.limit input.candidates.length ∧
    scoreSortedDesc out ∧
    out.Subperm (scoredList input now u) := by
  obtain ⟨sorted, hperm, hsort, rfl⟩ := h
  refine ⟨?_, ?_, ?_⟩
  · rw [List.length_take, hperm.length_eq, scoredList_length]
  · simp only [scoreSortedDesc] at hsort ⊢
    exact List.Pairwise.sublist (List.take_sublist _ _) hsort
  · exact ((List.take_sublist _ _).subperm).trans hperm.subperm

/-- C3 witness: the amended shape at the tie example. -/
theorem score_output_shape_witness :
    [recTieA, recTieB].length = min tieInput.limit tieInput.candidates.length ∧
    scoreSortedDesc [recTieA, recTieB] ∧
    List.Subperm [recTieA, recTieB] (scoredList tieInput 0 tieU) :=
  score_output_shape tieInput 0 tieU [recTieA, recTieB] scoreOk_tie

/-- C10: whenever the scoring engine succeeds, the output is a sub-multiset
of the per-candidate scored list — no candidate contributes more than its
own single entry — and every returned entry copies some candidate's content
id, title, genre and popularity unchanged, with only the score newly
computed from that candidate. -/
theorem score_output_candidate_frame (input : ScoreInput) (now : ℚ) (u : ℕ → ℚ)
    (out : List ScoredRecommendation) (h : ScoreOk input now u out) :
    out.Subperm (scoredList input now u) ∧
    ∀ r ∈ out, ∃ c ∈ input.candidates,
      r.contentId = c.id ∧ r.title = c.title ∧ r.genre = c.genre ∧
      r.popularityScore = c.popularityScore ∧
      ∃ j, r.score = roundTo3 (computeFinalScore c
        (calculateGenrePreferenceWeights input.watchHistory) now (u j)) := by
  obtain ⟨sorted, hperm, hsort, rfl⟩ := h
  have hsub : (sorted.take input.limit).Subperm (scoredList input now u) :=
    ((List.take_sublist _ _).subperm).trans hperm.subperm
  refine ⟨hsub, ?_⟩
  intro r hr
  have hr2 : r ∈ scoredList input now u := hsub.subset hr
  obtain ⟨c, hc, j, rfl⟩ := mem_scoreCandidates _ now u input.candidates 0 r hr2
  exact ⟨c, hc, rfl, rfl, rfl, rfl, j, rfl⟩

/-- C10 witness: the frame condition at the tie example. -/
theorem score_output_candidate_frame_witness :
    List.Subperm [recTieA, recTieB] (scoredList tieInput 0 tieU) ∧
    ∀ r ∈ [recTieA, recTieB], ∃ c ∈ tieInput.candidates,
      r.contentId = c.id ∧ r.title = c.title ∧ r.genre = c.genre ∧
      r.popularityScore = c.popularityScore ∧
      ∃ j, r.score = roundTo3 (computeFinalScore c
        (calculateGenrePreferenceWeights tieInput.watchHistory) 0 (tieU j)) :=
  score_output_candidate_frame tieInput 0 tieU [recTieA, recTieB] scoreOk_tie

/-- C6 counterexample: at the draw `u = 0` (a value `rand.Float64()` can
return) the net noise contribution is exactly −0.005, so its magnitude is
not strictly below 0.005. -/
theorem noise_bound_not_strict :
    randomNoise 0 = -(1/200) ∧ ¬ |randomNoise 0| < 1/200 := by
  have h : randomNoise 0 = -(1/200) := by norm_num [randomNoise]
  refine ⟨h, ?_⟩
  rw [h, abs_neg, abs_of_nonneg (by norm_num : (0:ℚ) ≤ 1/200)]
  exact lt_irrefl _

/-- C6 (amended): each candidate's score is
`popularity·0.40 + genre_weight·0.35 + recency·0.15 + noise·0.10` rounded to
3 decimals, with `recency = 1/(1 + days_since_created/365)` over fractional
days and `noise = u·0.1 − 0.05`; the net noise contribution lies in
[−0.005, 0.005) — bounded in magnitude by 0.005, attained at the lower
endpoint — and content created at the request instant has recency 1 while
content created exactly 365 days earlier has recency 1/2. -/
theorem score_formula_spec (input : ScoreInput) (now : ℚ) (u : ℕ → ℚ) :
    (∀ (i : ℕ) (c : Content), input.candidates[i]? = some c →
      ((scoredList input now u)[i]?).map (fun r => r.score) =
        some (roundTo3 (specScoreFormula c
          (usedGenreWeight input.watchHistory c.genre) now (u i * 0.1 - 0.05)))) ∧
    (∀ v : ℚ, 0 ≤ v → v < 1 → -(1/200) ≤ randomNoise v ∧ randomNoise v < 1/200) ∧
    (∀ t : ℚ, calculateRecencyFactor t t = 1) ∧
    (∀ t : ℚ, calculateRecencyFactor t (t + 365 * 24) = 1/2) := by
  refine ⟨?_, ?_, ?_, ?_⟩
  · intro i c hc
    rw [scoredList_getElem?, hc]
    have hscore : computeFinalScore c (calculateGenrePreferenceWeights input.watchHistory)
        now (u i) =
        specScoreFormula c (usedGenreWeight input.watchHistory c.genre) now
          (u i * 0.1 - 0.05) := by
      simp only [computeFinalScore, specScoreFormula, usedGenreWeight,
        calculateRecencyFactor, randomNoise]
      ring
    simp [scoredOf, hscore]
  · intro v h0 h1
    constructor <;> (simp only [randomNoise]; nlinarith)
  · intro t
    simp only [calculateRecencyFactor]
    norm_num
  · intro t
    simp only [calculateRecencyFactor]
    have harith : (t + 365 * 24 - t) / 24 = 365 := by ring
    rw [harith]
    norm_num

/-- C6 witness: the score of the first tie-example candidate matches the
spec formula, the noise bound at the draw 1/2, and the two recency
endpoints at request time 3. -/
theorem score_formula_spec_witness :
    ((scoredList tieInput 0 tieU)[0]?).map (fun r => r.score) =
      some (roundTo3 (specScoreFormula candTieA
        (usedGenreWeight tieInput.watchHistory candTieA.genre) 0 (tieU 0 * 0.1 - 0.05))) ∧
    (-(1/200) ≤ randomNoise (1/2) ∧ randomNoise (1/2) < 1/200) ∧
    calculateRecencyFactor 3 3 = 1 ∧
    calculateRecencyFactor 3 (3 + 365 * 24) = 1/2 := by
  obtain ⟨h1, h2, h3, h4⟩ := score_formula_spec tieInput 0 tieU
  exact ⟨h1 0 candTieA rfl, h2 (1/2) (by norm_num) (by norm_num), h3 3, h4 3⟩

/-- The fan-out loop yields one result per requested user id. -/
theorem batchResultsAux_length (outcome : ℕ → ℤ → Except GoErr RecommendationResult) :
    ∀ (ids : List ℤ) (i : ℕ), (batchResultsAux outcome i ids).length = ids.length := by
  intro ids
  induction ids with
  | nil => intro i; rfl
  | cons a t ih =>
    intro i
    simp [batchResultsAux, ih]

/-- Positionally, the fan-out loop writes at index `j` the outcome of the
unit spawned for the `j`-th user id. -/
theorem batchResultsAux_getElem? (outcome : ℕ → ℤ → Except GoErr RecommendationResult) :
    ∀ (ids : List ℤ) (i j : ℕ),
      (batchResultsAux outcome i ids)[j]? =
        (ids[j]?).map (fun uid => processUserForBatch uid (outcome (i + j) uid)) := by
  intro ids
  induction ids with
  | nil => intro i j; simp [batchResultsAux]
  | cons a t ih =>
    intro i j
    cases j with
    | zero => simp [batchResultsAux]
    | succ m =>
      simp only [batchResultsAux, List.getElem?_cons_succ, ih (i + 1) m]
      have : i + 1 + m = i + (m + 1) := by omega
      rw [this]

/-- A per-user result always carries the requested user id. -/
theorem processUserForBatch_userID (uid : ℤ) (oc : Except GoErr RecommendationResult) :
    (processUserForBatch uid oc).userID = uid := by
  cases oc <;> rfl

/-- A per-user result is tagged success or failed. -/
theorem processUserForBatch_status (uid : ℤ) (oc : Except GoErr RecommendationResult) :
    (processUserForBatch uid oc).status = statusSuccess ∨
      (processUserForBatch uid oc).status = statusFailed := by
  cases oc with
  | error e => exact Or.inr rfl
  | ok r => exact Or.inl rfl

/-- Every fan-out result is some unit's per-user result. -/
theorem mem_batchResultsAux (outcome : ℕ → ℤ → Except GoErr RecommendationResult) :
    ∀ (ids : List ℤ) (i : ℕ) (r : BatchUserResult),
      r ∈ batchResultsAux outcome i ids →
        ∃ uid j, r = processUserForBatch uid (outcome j uid) := by
  intro ids
  induction ids with
  | nil =>
    intro i r hr
    simp [batchResultsAux] at hr
  | cons a t ih =>
    intro i r hr
    rcases List.mem_cons.mp hr with rfl | hr2
    · exact ⟨a, i, rfl⟩
    · exact ih (i + 1) r hr2

/-- A predicate's count and its negation's count partition the length. -/
theorem countP_not_add {α : Type} (p : α → Bool) (l : List α) :
    l.countP p + l.countP (fun a => !p a) = l.length := by
  induction l with
  | nil => rfl
  | cons a t ih =>
    cases hpa : p a <;> simp [List.countP_cons, hpa] <;> omega

/-- C4: a batch over N requested user ids yields exactly N results, the
`i`-th carrying the `i`-th requested user id whatever that unit's outcome;
every result is tagged success or failed, and
successCount + failedCount = N. -/
theorem batch_integrity (userIDs : List ℤ) (totalUsers : ℤ)
    (outcome : ℕ → ℤ → Except GoErr RecommendationResult) :
    (getBatchRecommendations userIDs totalUsers outcome).results.length = userIDs.length ∧
    (∀ i : ℕ, ((getBatchRecommendations userIDs totalUsers outcome).results[i]?).map
        (fun r => r.userID) = userIDs[i]?) ∧
    (∀ r ∈ (getBatchRecommendations userIDs totalUsers outcome).results,
      r.status = statusSuccess ∨ r.status = statusFailed) ∧
    (getBatchRecommendations userIDs totalUsers outcome).summary.successCount +
        (getBatchRecommendations userIDs totalUsers outcome).summary.failedCount =
      userIDs.length := by
  refine ⟨batchResultsAux_length _ _ _, ?_, ?_, ?_⟩
  · intro i
    show ((batchResultsAux outcome 0 userIDs)[i]?).map (fun r => r.userID) = userIDs[i]?
    rw [batchResultsAux_getElem?]
    cases h : userIDs[i]? with
    | none => rfl
    | some uid => simp [processUserForBatch_userID]
  · intro r hr
    obtain ⟨uid, j, rfl⟩ := mem_batchResultsAux outcome userIDs 0 r hr
    exact processUserForBatch_status uid _
  · show (batchResultsAux outcome 0 userIDs).countP (fun r => r.status == statusSuccess) +
        (batchResultsAux outcome 0 userIDs).countP (fun r => !(r.status == statusSuccess)) =
      userIDs.length
    rw [countP_not_add, batchResultsAux_length]

/-- C4 witness: the 3-user batch with user 2 failing has 3 index-aligned
results and success and failure counts summing to 3. -/
theorem batch_integrity_witness :
    (getBatchRecommendations [1, 2, 3] 20 batchOutcomeExample).results.length =
      ([1, 2, 3] : List ℤ).length ∧
    ((getBatchRecommendations [1, 2, 3] 20 batchOutcomeExample).results[1]?).map
        (fun r => r.userID) = ([1, 2, 3] : List ℤ)[1]? ∧
    (getBatchRecommendations [1, 2, 3] 20 batchOutcomeExample).summary.successCount +
        (getBatchRecommendations [1, 2, 3] 20 batchOutcomeExample).summary.failedCount =
      ([1, 2, 3] : List ℤ).length := by
  obtain ⟨h1, h2, h3, h4⟩ := batch_integrity [1, 2, 3] 20 batchOutcomeExample
  exact ⟨h1, h2 1, h4⟩

/-- C2 counterexample: a request with `limit = 0` (below 1) is served with
the effective limit 10 (`defaultLimit`), not 1 as the claim states. -/
theorem clampLimit_zero_not_one : clampLimit 0 = 10 ∧ clampLimit 0 ≠ 1 := by
  decide

/-- C2 (amended): GetRecommendations maps every limit below 1 to the default
limit 10 (not to 1), every limit above MAX = 50 to 50, and keeps in-range
limits unchanged; the effective limit always lies in [1, 50]. -/
theorem clampLimit_spec (limit : ℤ) :
    (limit < 1 → clampLimit limit = defaultLimit) ∧
    (1 ≤ limit → limit ≤ maxLimit → clampLimit limit = limit) ∧
    (maxLimit < limit → clampLimit limit = maxLimit) ∧
    1 ≤ clampLimit limit ∧ clampLimit limit ≤ maxLimit := by
  unfold clampLimit defaultLimit maxLimit
  split_ifs <;> exact ⟨by omega, by omega, by omega, by omega, by omega⟩

/-- C2 witness: the amended clamp at limits 0, 7 and 99. -/
theorem clampLimit_spec_witness :
    clampLimit 0 = defaultLimit ∧ clampLimit 7 = 7 ∧ clampLimit 99 = maxLimit :=
  ⟨(clampLimit_spec 0).1 (by norm_num),
   (clampLimit_spec 7).2.1 (by norm_num) (by decide),
   (clampLimit_spec 99).2.2.1 (by decide)⟩

/-- C1 (code bug): when the scoring engine fails, GetRecommendations returns
the raw `*ModelInferenceError`, which is NOT related to the
`domain.ErrModelUnavailable` sentinel, so the handler's
`errors.Is(err, ErrModelUnavailable)` branch never fires and the failure is
classified as a generic `internal_error` — even though the batch path's
`categorizeError` does recognize the same error by type. -/
theorem scoring_failure_not_model_unavailable :
    getRecommendations envScoringFails 10 =
      .error (.modelInferenceError "model inference failed") ∧
    errorsIs (.modelInferenceError "model inference failed") .errModelUnavailable = false ∧
    handlerClassify (.modelInferenceError "model inference failed") = "internal_error" ∧
    (categorizeError (.modelInferenceError "model inference failed")).1 =
      "model_inference_error" :=
  ⟨rfl, rfl, rfl, rfl⟩

/-- C7: AddWatchHistory aborts with the persistence error, leaving the cache
state untouched, when persistence fails; on persistence success it runs the
user's cache invalidation and returns success, whatever the invalidation
outcome. -/
theorem add_watch_history_spec {σ : Type} (persist : Except GoErr Unit)
    (clearUserCache : σ → σ × Option GoErr) (st : σ) :
    (∀ e, persist = .error e →
      addWatchHistory persist clearUserCache st = (.error e, st)) ∧
    (persist = .ok () →
      addWatchHistory persist clearUserCache st = (.ok (), (clearUserCache st).1)) := by
  constructor
  · rintro e rfl
    rfl
  · rintro rfl
    rfl

/-- C7 witness: a failed persist leaves the (numeric stand-in) cache state 5
unchanged; a successful persist applies the invalidation — moving the state
to 0 — and still returns success although the invalidation itself errors. -/
theorem add_watch_history_spec_witness :
    addWatchHistory (Except.error (GoErr.simple "db down"))
        (fun _ : ℕ => ((0 : ℕ), (none : Option GoErr))) 5 =
      (.error (.simple "db down"), 5) ∧
    addWatchHistory (Except.ok ())
        (fun _ : ℕ => ((0 : ℕ), some (GoErr.simple "redis down"))) 5 =
      (.ok (), 0) :=
  ⟨(add_watch_history_spec _ _ _).1 _ rfl, (add_watch_history_spec _ _ _).2 rfl⟩

/-- C8 counterexample: with CACHE_TTL configured to 5 minutes, the config
loads 5 minutes but the cache write still carries the fixed 10-minute TTL,
so the TTL passed to the backend differs from the configured value. -/
theorem cache_ttl_ignores_config :
    loadCacheTTL (some (5 * 60 * 1000000000)) = 5 * 60 * 1000000000 ∧
    (cacheSetCommand 1 10 []).ttlNanos = 10 * 60 * 1000000000 ∧
    (cacheSetCommand 1 10 []).ttlNanos ≠ loadCacheTTL (some (5 * 60 * 1000000000)) := by
  refine ⟨rfl, rfl, ?_⟩
  decide

/-- C8 (amended): every cache write attaches the fixed package-level TTL of
10 minutes; the configured cache-TTL value (CACHE_TTL, default 10 minutes)
is loaded by the config but never propagated to the cache writes. -/
theorem cache_set_fixed_ttl (userID limit : ℤ) (recs : List ScoredRecommendation) :
    (cacheSetCommand userID limit recs).ttlNanos = defaultTTLNanos ∧
    defaultTTLNanos = 10 * 60 * 1000000000 ∧
    loadCacheTTL none = defaultTTLNanos :=
  ⟨rfl, rfl, rfl⟩

/-- C5: the genre weight used in scoring is count-of-genre / history-length
whenever the genre occurs in the history, and the 0.1 exploration floor for
every genre absent from the history (in particular for every genre when the
history is empty); it is never 0. -/
theorem genre_weight_spec (history : List WatchHistoryItem) (g : String) :
    (history.countP (fun it => it.genre == g) = 0 → usedGenreWeight history g = 0.1) ∧
    (0 < history.countP (fun it => it.genre == g) →
      usedGenreWeight history g =
        (history.countP (fun it => it.genre == g) : ℚ) / (history.length : ℚ)) ∧
    usedGenreWeight history g ≠ 0 := by
  have hle : history.countP (fun it => it.genre == g) ≤ history.length :=
    List.countP_le_length _
  unfold usedGenreWeight calculateGenrePreferenceWeights
  dsimp only
  split_ifs with h1 h2
  · have hlen : history.length = 0 := by exact_mod_cast h1
    refine ⟨fun _ => rfl, fun hpos => absurd hpos (by omega), by norm_num⟩
  · exact ⟨fun _ => rfl, fun hpos => absurd hpos (by omega), by norm_num⟩
  · have hlen : (history.length : ℚ) ≠ 0 := h1
    have hcnt : (history.countP (fun it => it.genre == g) : ℚ) ≠ 0 := by
      exact_mod_cast h2
    refine ⟨fun hz => absurd hz h2, fun _ => rfl, div_ne_zero hcnt hlen⟩

/-- C5 witness: for history {action:3, drama:1} the weights are 0.75 for
action, 0.25 for drama and the 0.1 floor for (absent) comedy; the empty
history also yields the floor. -/
theorem genre_weight_spec_witness :
    usedGenreWeight histActionDrama "action" = 3 / 4 ∧
    usedGenreWeight histActionDrama "drama" = 1 / 4 ∧
    usedGenreWeight histActionDrama "comedy" = 1 / 10 ∧
    usedGenreWeight [] "action" = 1 / 10 := by
  have hcA : histActionDrama.countP (fun it => it.genre == "action") = 3 := by decide
  have hcD : histActionDrama.countP (fun it => it.genre == "drama") = 1 := by decide
  have hlen : histActionDrama.length = 4 := by decide
  refine ⟨?_, ?_, ?_, ?_⟩
  · rw [(genre_weight_spec _ "action").2.1 (by decide), hcA, hlen]
    norm_num
  · rw [(genre_weight_spec _ "drama").2.1 (by decide), hcD, hlen]
    norm_num
  · rw [(genre_weight_spec _ "comedy").1 (by decide)]
    norm_num
  · rw [(genre_weight_spec [] "action").1 (by decide)]
    norm_num

end RecService
